import Mathlib

/-!
Verification development for the InfiniteBook client orchestration code
(`src/templates/app.js`, `src/templates/utils.js`).

The JavaScript is shallowly embedded: strings become `List Char` / `String`,
JS objects used as maps become association lists or lookup functions, and the
stateful operations become pure functions on an explicit `World` state.
Network calls are modelled by explicit success flags and by an explicit server
store for the audio jobs; the backend endpoints themselves are not in the
repository, so their effect is modelled from the specification where needed.
-/

/- ======================= Dialogue tokenizer (utils.js 34-123) ======================= -/

/-- Character constants, written via code points so that quote characters never
appear as literals. `openCurly`/`closeCurly` are the typographic quotes. -/
def openCurly : Char := Char.ofNat 0x201C

def closeCurly : Char := Char.ofNat 0x201D

def dquote : Char := Char.ofNat 34

def squote : Char := Char.ofNat 39

def backslash : Char := Char.ofNat 92

/-- `isWordChar(ch)` from utils.js: `ch != null && /[A-Za-z0-9_]/.test(ch)`.
The possibly-null JS character is an `Option Char`. -/
def isWordChar : Option Char → Bool
  | none => false
  | some c => c.isAlpha || c.isDigit || c = '_'

/-- `isBoundary(ch)` from utils.js: `ch == null || !isWordChar(ch)`. -/
def isBoundary : Option Char → Bool
  | none => true
  | some c => !isWordChar (some c)

/-- One character of `escapeHTML` from utils.js. The JS function is a chain of
`replaceAll` calls over the whole string (`&`, `<`, `>`, `"`, `'` in that
order); since no later target occurs in an earlier replacement, the chain is
exactly this character-by-character map. -/
def escChar (c : Char) : List Char :=
  if c = '&' then ("&amp;").data
  else if c = '<' then ("&lt;").data
  else if c = '>' then ("&gt;").data
  else if c = dquote then ("&quot;").data
  else if c = squote then ("&#039;").data
  else [c]

/-- `escapeHTML` from utils.js, over `List Char`. -/
def escapeHTML (l : List Char) : List Char :=
  l.foldr (fun c acc => escChar c ++ acc) []

/-- The fixed markup emitted around a recognized dialogue span. -/
def spanOpen : List Char := ("<span class=\"dlg\">").data

def spanClose : List Char := ("</span>").data

/-- Inner loop of the curly-quote branch: scan for the matching close glyph.
Returns the consumed segment (close glyph included) and the remainder. -/
def splitAtCloseCurly : List Char → Option (List Char × List Char)
  | [] => none
  | c :: cs =>
    if c = closeCurly then some ([c], cs)
    else
      match splitAtCloseCurly cs with
      | some (seg, rest) => some (c :: seg, rest)
      | none => none

/-- Inner loop of the straight double quote branch: the close is the next
double quote not preceded by a backslash (`raw[j-1] !== "\\"`); `prev` carries
`raw[j-1]`. -/
def splitAtCloseDouble (prev : Char) : List Char → Option (List Char × List Char)
  | [] => none
  | c :: cs =>
    if c = dquote ∧ prev ≠ backslash then some ([c], cs)
    else
      match splitAtCloseDouble c cs with
      | some (seg, rest) => some (c :: seg, rest)
      | none => none

/-- Inner loop of the straight single quote branch: a quote flanked by word
characters on both sides is a mid-word apostrophe and is skipped; a quote
closes only when it is not such an apostrophe and the following character is a
boundary. `prev` carries `raw[j-1]`. -/
def splitAtCloseSingle (prev : Char) : List Char → Option (List Char × List Char)
  | [] => none
  | c :: cs =>
    if c = squote ∧ (!(isWordChar (some prev) && isWordChar cs.head?) && isBoundary cs.head?) = true
    then some ([c], cs)
    else
      match splitAtCloseSingle c cs with
      | some (seg, rest) => some (c :: seg, rest)
      | none => none

/-- The scanning loop of `highlightDialogueToHtml` (utils.js 51-123).
`prev` is the character before the current position (`raw[i-1]`), `fuel` is an
upper bound on the number of loop iterations: every iteration consumes at
least one character, so `fuel = raw.length` always suffices. The three quote
branches are tried in order; an unmatched opener falls through to literal
escaping of that single character, exactly as in the source. -/
def scanAux : Nat → Option Char → List Char → List Char
  | 0, _, _ => []
  | _ + 1, _, [] => []
  | fuel + 1, prev, c :: cs =>
    if c = openCurly then
      match splitAtCloseCurly cs with
      | some (seg, rest) =>
          spanOpen ++ escapeHTML (c :: seg) ++ spanClose ++ scanAux fuel (some closeCurly) rest
      | none => escapeHTML [c] ++ scanAux fuel (some c) cs
    else if c = dquote ∧ isBoundary prev = true then
      match splitAtCloseDouble c cs with
      | some (seg, rest) =>
          spanOpen ++ escapeHTML (c :: seg) ++ spanClose ++ scanAux fuel (some dquote) rest
      | none => escapeHTML [c] ++ scanAux fuel (some c) cs
    else if c = squote ∧ isBoundary prev = true then
      match splitAtCloseSingle c cs with
      | some (seg, rest) =>
          spanOpen ++ escapeHTML (c :: seg) ++ spanClose ++ scanAux fuel (some squote) rest
      | none => escapeHTML [c] ++ scanAux fuel (some c) cs
    else escapeHTML [c] ++ scanAux fuel (some c) cs

/-- `highlightDialogueToHtml` from utils.js. -/
def highlightDialogueToHtml (raw : String) : String :=
  String.mk (scanAux raw.data.length none raw.data)

/-- The output language of the tokenizer: a concatenation of individually
escaped characters and dialogue spans whose content went through
`escapeHTML`, i.e. every input character reaches the output only through the
escaping routine. -/
inductive EscapedOut : List Char → Prop where
  | nil : EscapedOut []
  | lit (c : Char) (rest : List Char) :
      EscapedOut rest → EscapedOut (escapeHTML [c] ++ rest)
  | span (s rest : List Char) :
      EscapedOut rest → EscapedOut (spanOpen ++ escapeHTML s ++ spanClose ++ rest)

/- ======================= Audio job data model (app.js 62-95, 366-445) ======================= -/

/-- JS `String.prototype.toLowerCase`, character by character. -/
def jsToLower (s : String) : String :=
  String.mk (s.data.map Char.toLower)

/-- One audio job record: `{ exists, status, url }` (app.js 68, 86). -/
structure AudioSt where
  exists_ : Bool
  status : String
  url : String
deriving DecidableEq

/-- The default record installed by `getBeatAudio` when a `(beat, provider)`
key is missing: `{ exists: false, status: "missing", url: "" }` (app.js 86). -/
def defaultAudio : AudioSt :=
  { exists_ := false, status := ("missing"), url := ("") }

/-- The client JS object `beatAudio[idx][provider]`, as an association list
keyed by `(beatIndex, providerKey)`. -/
abbrev AudioMap := List ((Nat × String) × AudioSt)

/-- Lookup in the client audio map. -/
def lookupAudio (m : AudioMap) (k : Nat × String) : Option AudioSt :=
  (m.find? (fun e => e.1 = k)).map (fun e => e.2)

/-- JS object assignment `beatAudio[idx][provider] = v`: replace in place or
append. -/
def setAudio (m : AudioMap) (k : Nat × String) (v : AudioSt) : AudioMap :=
  match m with
  | [] => [(k, v)]
  | e :: t => if e.1 = k then (k, v) :: t else e :: setAudio t k v

/-- `getBeatAudio` (app.js 83-89) used for its initializing side effect:
install `defaultAudio` when the key is absent. -/
def getOrInitAudio (m : AudioMap) (k : Nat × String) : AudioMap :=
  match lookupAudio m k with
  | some _ => m
  | none => setAudio m k defaultAudio

/-- The provider keys of `TTS_PROVIDERS` (app.js 62-66). -/
def TTS_PROVIDER_KEYS : List String := [("piper"), ("xtts"), ("qwen")]

/-- The `(idx, provider)` pairs visited by the default-installing double loop
at the top of `refreshAudioStatusForChapter` (app.js 371-373). -/
def defaultKeyPairs (numBeats : Nat) : List (Nat × String) :=
  (List.range numBeats).flatMap (fun idx => TTS_PROVIDER_KEYS.map (fun p => (idx, p)))

/-- `currentBeats.forEach(... getBeatAudio(idx, p.key))` (app.js 371-373):
ensure a default record exists for every beat of the plan and every provider. -/
def ensureDefaults (numBeats : Nat) (m : AudioMap) : AudioMap :=
  (defaultKeyPairs numBeats).foldl getOrInitAudio m

/-- One item of the `get-audio-status` response (app.js 381-403). -/
structure AudioItem where
  beat_index : Nat
  provider : String
  exists_ : Bool
  status : String
  url : String
deriving DecidableEq

/-- The relative wav URL built when an item has no `url` of its own
(app.js 389-390). -/
def apiWavUrl (ch idx : Nat) (provider : String) : String :=
  ("/audio/wav?chapter=") ++ toString ch ++ ("&beat_index=") ++ toString idx
    ++ ("&provider=") ++ provider

/-- Application of one status item (the `items.forEach` body, app.js 381-403).
The provider key is lowercased and an empty provider is skipped; the record
fully replaces the previous one for its key. The browser absolutization
`new URL(rel, location).href` is modelled as the identity on the relative
URL. The `needRerender` bookkeeping only triggers a DOM re-render and does
not change the stored state, so it is not modelled. -/
def applyItem (ch : Nat) (m : AudioMap) (it : AudioItem) : AudioMap :=
  let provider := jsToLower it.provider
  if provider = ("") then m
  else
    let rel :=
      if it.url ≠ ("") then it.url
      else if it.exists_ then apiWavUrl ch it.beat_index provider
      else ("")
    setAudio m (it.beat_index, provider)
      { exists_ := it.exists_
        status := if it.status ≠ ("") then it.status
                  else if it.exists_ then ("ready") else ("missing")
        url := rel }

/-- `refreshAudioStatusForChapter` (app.js 366-411): no-op when no plan is
loaded; otherwise install defaults for every beat/provider of the current
plan, then apply every item of the server response for `ch`. -/
def refreshAudioStatusForChapter (numBeats : Nat) (m : AudioMap)
    (items : List AudioItem) (ch : Nat) : AudioMap :=
  if numBeats = 0 then m
  else items.foldl (applyItem ch) (ensureDefaults numBeats m)

/-- The backend store of audio jobs, keyed by `(chapter, beatIndex, provider)`.
The backend itself is not part of the repository; it is modelled from the
specification of its interface. -/
abbrev ServerAudio := List ((Nat × Nat × String) × AudioSt)

/-- Modelled from the spec: `get-audio-status(chapter)` returns the list of
`{beatIndex, provider, exists, status, url}` items for the chapter's stored
jobs (spec section 6). -/
def serverStatusItems (c : Nat) (s : ServerAudio) : List AudioItem :=
  s.filterMap (fun e =>
    if e.1.1 = c then
      some { beat_index := e.1.2.1, provider := e.1.2.2
             exists_ := e.2.exists_, status := e.2.status, url := e.2.url }
    else none)

/-- Modelled from the spec: the backend `clear-from(chapter, i)` endpoint
deletes the stored prose and audio jobs of that chapter at beat indices `≥ i`
(spec sections 4.2 rule 4 and 6); only the audio part is observed by the
claims. -/
def serverClearFrom (c i : Nat) (s : ServerAudio) : ServerAudio :=
  s.filter (fun e => !(decide (e.1.1 = c ∧ i ≤ e.1.2.1)))

/-- The `stillGenerating` scan of the poll tick (app.js 437-439): some stored
record has status `"generating"`. -/
def stillGenerating (m : AudioMap) : Bool :=
  m.any (fun e => e.2.status = ("generating"))

/- ======================= Client world state ======================= -/

/-- The mutable client state of app.js relevant to the claims, together with
the modelled backend audio store and the poller globals
(`_audioPollTimer`/`_audioPollChapter` are combined into `pollTimer`,
`_audioPollInFlight` is `inFlight`). `beatTexts` is the chapter-scoped JS
object `{ idx: text }`, modelled by its lookup function. -/
structure World where
  beatTexts : Nat → Option String
  beatAudio : AudioMap
  numBeats : Nat
  currentChapter : Nat
  server : ServerAudio
  pollTimer : Option Nat
  inFlight : Bool

/-- The success path of `planCurrentChapter` (app.js 664-733) for the current
chapter: the new plan replaces `currentBeats`; the best-effort
`/beat/clear_from` request (whose failure is swallowed by the empty catch at
app.js 704) is issued with `from_beat_index = 0`; `beatTexts` and `beatAudio`
are reset and the audio status is refetched for the current chapter.
`clearOk` records whether the embedded clear-from request succeeded; the run
as a whole is a successful one either way. -/
def planCurrentChapterOp (w : World) (newBeats : Nat) (clearOk : Bool) : World :=
  let w1 := { w with numBeats := newBeats }
  let w2 := { w1 with server :=
    if clearOk then serverClearFrom w1.currentChapter 0 w1.server else w1.server }
  let w3 := { w2 with beatTexts := fun _ => none }
  let w4 := { w3 with beatAudio := [] }
  let refreshed := refreshAudioStatusForChapter w4.numBeats w4.beatAudio
    (serverStatusItems w4.currentChapter w4.server) w4.currentChapter
  { w4 with beatAudio := refreshed }

/-- `clearFrom(fromIdx)` (app.js 936-964). On success the backend deletion is
followed by the local deletion of every `beatTexts` key `≥ fromIdx` and an
audio status refresh; on failure (`ok = false`) the catch block only alerts
and the state is unchanged. -/
def clearFromOp (w : World) (fromIdx : Nat) (ok : Bool) : World :=
  if ok then
    let bt := fun j => if fromIdx ≤ j then none else w.beatTexts j
    let w1 := { w with
      server := serverClearFrom w.currentChapter fromIdx w.server
      beatTexts := bt }
    let refreshed := refreshAudioStatusForChapter w1.numBeats w1.beatAudio
      (serverStatusItems w1.currentChapter w1.server) w1.currentChapter
    { w1 with beatAudio := refreshed }
  else w

/-- One firing of the shared poll interval registered by `startAudioPoll`
(app.js 423-445): dropped when a poll is already in flight; otherwise the
audio status of the *polled* chapter (the one captured when the timer was
started) is refetched into the client map, and the timer is cleared when no
record is left with status `"generating"`. -/
def pollTick (w : World) : World :=
  match w.pollTimer with
  | none => w
  | some ch =>
    if w.inFlight then w
    else
      let m := refreshAudioStatusForChapter w.numBeats w.beatAudio
        (serverStatusItems ch w.server) ch
      let w1 := { w with beatAudio := m }
      if stillGenerating m then w1 else { w1 with pollTimer := none }

/-- `n` successive firings of the poll interval. -/
def pollTickN : Nat → World → World
  | 0, w => w
  | n + 1, w => pollTickN n (pollTick w)

/- ======================= Write-beat click handling (app.js 864-908) ======================= -/

/-- `isRewrite` from the write-beat delegation (app.js 904):
`!!(beatTexts[idx] && beatTexts[idx].trim().length)`. -/
def isRewrite : Option String → Bool
  | none => false
  | some s => s.data.any (fun c => !c.isWhitespace)

/-- Network events observable in the order the client produces them. -/
inductive NetEvent where
  | clearFromReq (chapter fromIdx : Nat)
  | clearFromDone (chapter fromIdx : Nat) (ok : Bool)
  | audioStatusReq (chapter : Nat)
  | writeBeatReq (chapter beatIdx : Nat)
  | continuityReq (chapter : Nat)
deriving DecidableEq

/-- The network trace of one `clearFrom` call (app.js 936-964): the
`/beat/clear_from` request is issued and settles; only on success does the
refresh issue its `/audio/status` request (skipped when no plan is loaded). -/
def clearFromTrace (c i numBeats : Nat) (ok : Bool) : List NetEvent :=
  [NetEvent.clearFromReq c i, NetEvent.clearFromDone c i ok] ++
    (if ok = true ∧ numBeats ≠ 0 then [NetEvent.audioStatusReq c] else [])

/-- The network trace of one `writeBeat` call (app.js 1016-1050): nothing when
no plan is loaded; otherwise the `/write_beat` request, then on success the
status refresh and, for the last beat, the continuity rebuild. -/
def writeBeatTrace (c i numBeats : Nat) (ok : Bool) : List NetEvent :=
  if numBeats = 0 then []
  else
    [NetEvent.writeBeatReq c i] ++
      (if ok = true then [NetEvent.audioStatusReq c] else []) ++
      (if ok = true ∧ i = numBeats - 1 then [NetEvent.continuityReq c] else [])

/-- The write/rewrite branch of the click delegation (app.js 900-907): when
beat `idx` already has non-blank text, `clearFrom(idx + 1)` is awaited to
completion before `writeBeat(idx)` runs. -/
def handleWriteBeatClick (c idx numBeats : Nat) (bt : Nat → Option String)
    (clearOk writeOk : Bool) : List NetEvent :=
  if isRewrite (bt idx) then
    clearFromTrace c (idx + 1) numBeats clearOk ++ writeBeatTrace c idx numBeats writeOk
  else writeBeatTrace c idx numBeats writeOk

/- ======================= Provider selection (app.js 71-81, 97-131) ======================= -/

/-- Naive substring test used to model JS `String.prototype.includes`. -/
def hasSubstr (hay needle : List Char) : Bool :=
  if needle.isPrefixOf hay then true
  else
    match hay with
    | [] => false
    | _ :: t => hasSubstr t needle

/-- `getActiveTtsProvider` (app.js 71-81): lowercase the monitor text and
return the first of the known provider names that occurs in it as a
substring, else null. -/
def getActiveTtsProvider (monitorText : String) : Option String :=
  let raw := jsToLower monitorText
  TTS_PROVIDER_KEYS.find? (fun k => hasSubstr raw.data k.data)

/-- The disabled state of a Generate button as computed by
`updateBeatAudioRowUI` (app.js 110-113): `!(active && active === p.key)`. -/
def generateButtonDisabled (active : Option String) (providerKey : String) : Bool :=
  match active with
  | none => true
  | some a => a != providerKey

/- ======================= Concrete states and auxiliary predicates ======================= -/

/-- A character that is none of `<`, `>`, `"`, `'` (the characters whose raw
occurrence in HTML output would be an injection risk). -/
def htmlSafeChar (c : Char) : Bool :=
  !(c == ('<') || c == ('>') || c == dquote || c == squote)

/-- A world in which chapter 1 has a stored, existing audio job for beat 0 and
provider piper. -/
def chapterOneExistingJobWorld : World :=
  { beatTexts := fun _ => none
    beatAudio := []
    numBeats := 1
    currentChapter := 1
    server := [((1, 0, ("piper")), { exists_ := true, status := ("ready"), url := ("u") })]
    pollTimer := none
    inFlight := false }

/-- A world observed right after navigating from chapter 1 to chapter 2 while
the chapter-1 poll timer is still running: `currentChapter` is 2, the client
audio map was reset by `loadChapterState`, but `_audioPollTimer` /
`_audioPollChapter` still belong to chapter 1, and the backend still reports
an existing chapter-1 job. -/
def staleWorld : World :=
  { beatTexts := fun _ => none
    beatAudio := []
    numBeats := 1
    currentChapter := 2
    server := [((1, 0, ("piper")), { exists_ := true, status := ("ready"), url := ("u") })]
    pollTimer := some 1
    inFlight := false }

/-- A world whose backend forever reports one chapter-1 job with status
`generating`: the server store is never updated, so every poll sees the same
response. -/
def generatingForeverWorld : World :=
  { beatTexts := fun _ => none
    beatAudio := []
    numBeats := 1
    currentChapter := 1
    server := [((1, 0, ("piper")), { exists_ := false, status := ("generating"), url := ("") })]
    pollTimer := some 1
    inFlight := false }

/-- The client audio map reached after one tick in `generatingForeverWorld`;
it is a fixpoint of the refresh performed by every later tick. -/
def generatingMap : AudioMap := (pollTick generatingForeverWorld).beatAudio

/-- Invariant maintained by `pollTick` on `generatingForeverWorld`: the timer
is still set for chapter 1 and the client map is either still the initial
empty one or the refreshed fixpoint. -/
def PollInv (w : World) : Prop :=
  w.pollTimer = some 1 ∧ w.inFlight = false ∧ w.numBeats = 1 ∧
    w.server = generatingForeverWorld.server ∧
    (w.beatAudio = [] ∨ w.beatAudio = generatingMap)

/-- A world with an idle poller for chapter 1 and no plan loaded, used to
instantiate the poller-stop theorem. -/
def idlePollWorld : World :=
  { beatTexts := fun _ => none
    beatAudio := []
    numBeats := 0
    currentChapter := 1
    server := []
    pollTimer := some 1
    inFlight := false }

/-- A beat-text map in which beat 0 holds text and beat 1 does not. -/
def sampleBeatTexts : Nat → Option String :=
  fun j => if j = 0 then some ("a") else none

/-- A world whose current chapter has beat 0 written, used to instantiate the
clear-from theorem. -/
def clearFromSampleWorld : World :=
  { beatTexts := sampleBeatTexts
    beatAudio := []
    numBeats := 0
    currentChapter := 1
    server := []
    pollTimer := none
    inFlight := false }

/-- A beat-text map whose beat 1 holds non-blank text, so that clicking its
Write button is a rewrite. -/
def rewriteBeatTexts : Nat → Option String :=
  fun j => if j = 1 then some (" hi ") else none

/- ======================= Helper lemmas ======================= -/

theorem lookupAudio_setAudio (m : AudioMap) (k k' : Nat × String) (v : AudioSt) :
    lookupAudio (setAudio m k v) k' = if k' = k then some v else lookupAudio m k' := by
  induction m with
  | nil =>
    by_cases h : k' = k
    · subst h; simp [setAudio, lookupAudio, List.find?]
    · have h' : ¬(k = k') := fun hh => h hh.symm
      simp [setAudio, lookupAudio, List.find?, h, h']
  | cons e t ih =>
    by_cases hek : e.1 = k
    · by_cases h : k' = k
      · subst h
        simp [setAudio, lookupAudio, List.find?, hek]
      · have h2 : ¬(e.1 = k') := fun hh => h (hh ▸ hek.symm ▸ rfl)
        have h' : ¬(k = k') := fun hh => h hh.symm
        simp [setAudio, lookupAudio, List.find?, hek, h, h', h2]
    · by_cases h2 : e.1 = k'
      · have h : ¬(k' = k) := fun hh => hek (h2.trans hh)
        simp [setAudio, lookupAudio, List.find?, hek, h, h2]
      · simp only [setAudio, if_neg hek]
        simp [lookupAudio, List.find?, h2] at ih ⊢
        exact ih

theorem lookupAudio_getOrInit (m : AudioMap) (k0 k : Nat × String) (st : AudioSt)
    (h : lookupAudio (getOrInitAudio m k0) k = some st) :
    st = defaultAudio ∨ lookupAudio m k = some st := by
  unfold getOrInitAudio at h
  split at h
  · exact Or.inr h
  · rw [lookupAudio_setAudio] at h
    by_cases hk : k = k0
    · rw [if_pos hk] at h
      exact Or.inl (Option.some.inj h).symm
    · rw [if_neg hk] at h
      exact Or.inr h

theorem lookupAudio_foldl_getOrInit (ks : List (Nat × String)) (m : AudioMap)
    (k : Nat × String) (st : AudioSt)
    (h : lookupAudio (ks.foldl getOrInitAudio m) k = some st) :
    st = defaultAudio ∨ lookupAudio m k = some st := by
  induction ks generalizing m with
  | nil => exact Or.inr h
  | cons k0 t ih =>
    rcases ih (getOrInitAudio m k0) h with h1 | h1
    · exact Or.inl h1
    · exact lookupAudio_getOrInit m k0 k st h1

theorem serverStatusItems_serverClearFrom (c : Nat) (s : ServerAudio) :
    serverStatusItems c (serverClearFrom c 0 s) = [] := by
  induction s with
  | nil => rfl
  | cons e t ih =>
    by_cases h : e.1.1 = c
    · simpa [serverClearFrom, List.filter_cons, h] using ih
    · have hstep : serverClearFrom c 0 (e :: t) = e :: serverClearFrom c 0 t := by
        simp [serverClearFrom, List.filter_cons, h]
      rw [hstep]
      simpa [serverStatusItems, List.filterMap_cons, h] using ih

theorem escapedOut_scanAux (fuel : Nat) :
    ∀ (prev : Option Char) (l : List Char), EscapedOut (scanAux fuel prev l) := by
  induction fuel with
  | zero => intro prev l; rw [scanAux]; exact EscapedOut.nil
  | succ n ih =>
    intro prev l
    cases l with
    | nil => rw [scanAux]; exact EscapedOut.nil
    | cons c cs =>
      rw [scanAux]
      split
      · split
        · exact EscapedOut.span _ _ (ih _ _)
        · exact EscapedOut.lit _ _ (ih _ _)
      · split
        · split
          · exact EscapedOut.span _ _ (ih _ _)
          · exact EscapedOut.lit _ _ (ih _ _)
        · split
          · split
            · exact EscapedOut.span _ _ (ih _ _)
            · exact EscapedOut.lit _ _ (ih _ _)
          · exact EscapedOut.lit _ _ (ih _ _)

theorem escChar_all_safe (a : Char) : (escChar a).all htmlSafeChar = true := by
  unfold escChar
  split
  · decide
  · split
    · decide
    · split
      · decide
      · split
        · decide
        · split
          · decide
          · simp_all [htmlSafeChar]

theorem escapeHTML_all_safe (l : List Char) : (escapeHTML l).all htmlSafeChar = true := by
  induction l with
  | nil => rfl
  | cons a t ih =>
    have hstep : escapeHTML (a :: t) = escChar a ++ escapeHTML t := rfl
    rw [hstep, List.all_append, escChar_all_safe, ih]
    rfl

theorem pollInv_step (w : World) (h : PollInv w) : PollInv (pollTick w) := by
  obtain ⟨h1, h2, h3, h4, h5⟩ := h
  have hg : stillGenerating generatingMap = true := by decide
  rcases h5 with h5 | h5
  · have hr : refreshAudioStatusForChapter 1 ([] : AudioMap)
        (serverStatusItems 1 generatingForeverWorld.server) 1 = generatingMap := by decide
    simp only [pollTick, h1, h2, h3, h4, h5, hr, hg, if_true, Bool.false_eq_true, if_false]
    exact ⟨rfl, rfl, rfl, rfl, Or.inr rfl⟩
  · have hr : refreshAudioStatusForChapter 1 generatingMap
        (serverStatusItems 1 generatingForeverWorld.server) 1 = generatingMap := by decide
    simp only [pollTick, h1, h2, h3, h4, h5, hr, hg, if_true, Bool.false_eq_true, if_false]
    exact ⟨rfl, rfl, rfl, rfl, Or.inr rfl⟩

theorem pollInv_iter (n : Nat) : ∀ (w : World), PollInv w → PollInv (pollTickN n w) := by
  induction n with
  | zero => intro w h; exact h
  | succ k ih => intro w h; exact ih (pollTick w) (pollInv_step w h)

theorem pollInv_generatingForever (n : Nat) : PollInv (pollTickN n generatingForeverWorld) :=
  pollInv_iter n generatingForeverWorld ⟨rfl, rfl, rfl, rfl, Or.inl rfl⟩

/- ======================= Claim theorems ======================= -/

/-- C1 (counterexample): as stated the claim fails. `planCurrentChapter`
swallows a failure of its embedded best-effort `/beat/clear_from` request
(empty catch, app.js 704) and still succeeds; the audio status refetched at
the end of the run then reports the backend's surviving chapter-1 job, so an
audio job is recorded as existing right after a successful `planChapter`. -/
theorem planChapter_clearFailure_counterexample :
    (lookupAudio (planCurrentChapterOp chapterOneExistingJobWorld 1 false).beatAudio
        (0, ("piper"))).map AudioSt.exists_ = some true := by
  decide

/-- C1 (amended): after a successful `planCurrentChapter` run the client
beat-text map is empty in every case, and provided the embedded clear-from
request also succeeded, no audio job of the chapter is recorded as existing,
for every beat index and provider, regardless of the prior client state. -/
theorem planChapter_wipes_chapter_state (w : World) (newBeats : Nat) (clearOk : Bool) :
    (∀ j, (planCurrentChapterOp w newBeats clearOk).beatTexts j = none) ∧
    (clearOk = true → ∀ (idx : Nat) (p : String) (st : AudioSt),
      lookupAudio (planCurrentChapterOp w newBeats clearOk).beatAudio (idx, p) = some st →
      st.exists_ = false) := by
  constructor
  · intro j; rfl
  · intro hok idx p st hlk
    subst hok
    have hitems := serverStatusItems_serverClearFrom w.currentChapter w.server
    simp only [planCurrentChapterOp, if_true, hitems, refreshAudioStatusForChapter] at hlk
    by_cases hnb : newBeats = 0
    · rw [if_pos hnb] at hlk
      simp [lookupAudio, List.find?] at hlk
    · rw [if_neg hnb, List.foldl_nil, ensureDefaults] at hlk
      rcases lookupAudio_foldl_getOrInit _ _ _ _ hlk with h | h
      · rw [h]; rfl
      · simp [lookupAudio, List.find?] at h

/-- C1 (witness): the amended theorem applied to a concrete world whose
backend held an existing chapter-1 job, with the clear-from succeeding. -/
theorem planChapter_wipes_chapter_state_witness :
    (planCurrentChapterOp chapterOneExistingJobWorld 1 true).beatTexts 0 = none ∧
    AudioSt.exists_ defaultAudio = false :=
  ⟨(planChapter_wipes_chapter_state chapterOneExistingJobWorld 1 true).1 0,
   (planChapter_wipes_chapter_state chapterOneExistingJobWorld 1 true).2 rfl 0 ("piper")
     defaultAudio (by decide)⟩

/-- C3: after a successful `clearFrom(i)` the client beat-text entry of every
index `j ≥ i` is absent and of every `j < i` unchanged. -/
theorem clearFrom_beatTexts_postcondition (w : World) (i j : Nat) :
    (i ≤ j → (clearFromOp w i true).beatTexts j = none) ∧
    (j < i → (clearFromOp w i true).beatTexts j = w.beatTexts j) := by
  constructor
  · intro h
    simp [clearFromOp, h]
  · intro h
    have h2 : ¬(i ≤ j) := by omega
    simp [clearFromOp, h2]

/-- C3 (witness): the postcondition at a concrete world with beat 0 written,
clearing from index 1. -/
theorem clearFrom_beatTexts_postcondition_witness :
    (clearFromOp clearFromSampleWorld 1 true).beatTexts 1 = none ∧
    (clearFromOp clearFromSampleWorld 1 true).beatTexts 0 = clearFromSampleWorld.beatTexts 0 :=
  ⟨(clearFrom_beatTexts_postcondition clearFromSampleWorld 1 1).1 (by decide),
   (clearFrom_beatTexts_postcondition clearFromSampleWorld 1 0).2 (by decide)⟩

/-- C9: two successful `clearFrom(0)` calls in a row leave the client
beat-text state identical to one call, namely the empty map. -/
theorem clearFrom_zero_idempotent (w : World) :
    (clearFromOp (clearFromOp w 0 true) 0 true).beatTexts = (clearFromOp w 0 true).beatTexts ∧
    ∀ j, (clearFromOp w 0 true).beatTexts j = none := by
  have h : ∀ (v : World) (j : Nat), (clearFromOp v 0 true).beatTexts j = none := by
    intro v j
    simp [clearFromOp]
  exact ⟨funext fun j => (h _ j).trans (h w j).symm, h w⟩

/-- C5: a tick of the shared per-chapter poller that is not dropped by the
re-entrancy guard and whose refreshed map has no record with status
`generating` clears the poll timer: the poller stops within one tick of the
last job leaving `generating`. -/
theorem poller_stops_after_idle_tick (w : World) (ch : Nat)
    (hT : w.pollTimer = some ch) (hF : w.inFlight = false)
    (hG : stillGenerating (refreshAudioStatusForChapter w.numBeats w.beatAudio
      (serverStatusItems ch w.server) ch) = false) :
    (pollTick w).pollTimer = none := by
  simp only [pollTick, hT, hF, hG, Bool.false_eq_true, if_false]

/-- C5 (witness): the stop theorem at a concrete idle world. -/
theorem poller_stops_after_idle_tick_witness : (pollTick idlePollWorld).pollTimer = none :=
  poller_stops_after_idle_tick idlePollWorld 1 (by decide) (by decide) (by decide)

/-- C4: a poll tick whose timer is still tagged with chapter 1 fires after the
client has navigated to chapter 2; the chapter-1 status response is written
into the client audio map that now represents chapter 2, mutating its state
(the entry for beat 0 / piper goes from absent to an existing chapter-1 job).
This exhibits the bug: neither `pollTick` nor `refreshAudioStatusForChapter`
compares the polled chapter against `currentChapter`. -/
theorem stale_poll_mutates_other_chapter :
    staleWorld.currentChapter = 2 ∧
    staleWorld.pollTimer = some 1 ∧
    lookupAudio staleWorld.beatAudio (0, ("piper")) = none ∧
    lookupAudio (pollTick staleWorld).beatAudio (0, ("piper")) =
      some { exists_ := true, status := ("ready"), url := ("u") } := by
  decide

/-- C6 (counterexample): with a backend that forever reports a `generating`
job, the shared per-chapter poller is still active after 121 ticks and even
after 500 ticks: no hard cap of about 120 polls exists in `startAudioPoll`
of app.js. -/
theorem poller_still_active_after_cap :
    (pollTickN 121 generatingForeverWorld).pollTimer = some 1 ∧
    (pollTickN 500 generatingForeverWorld).pollTimer = some 1 :=
  ⟨(pollInv_generatingForever 121).1, (pollInv_generatingForever 500).1⟩

/-- C6 (amended): the shared per-chapter poller has no hard poll cap: if the
backend never reports any job leaving `generating`, the poller is still
active after every number of ticks; it terminates only when some tick
observes no generating job. -/
theorem poller_unbounded_when_always_generating (n : Nat) :
    (pollTickN n generatingForeverWorld).pollTimer = some 1 :=
  (pollInv_generatingForever n).1

/-- C2: when beat `idx` already has non-blank text, the click handler issues
the `clear_from(idx + 1)` request (which invalidates all beats `> idx`) as
the first event and its completion as the second, every write-beat request
occurs strictly later, and (when a plan is loaded) the write-beat request for
beat `idx` is indeed issued at some later position. -/
theorem rewrite_clearFrom_precedes_writeBeat (c idx numBeats : Nat)
    (bt : Nat → Option String) (clearOk writeOk : Bool)
    (hRw : isRewrite (bt idx) = true) :
    (handleWriteBeatClick c idx numBeats bt clearOk writeOk).get? 0 =
      some (NetEvent.clearFromReq c (idx + 1)) ∧
    (handleWriteBeatClick c idx numBeats bt clearOk writeOk).get? 1 =
      some (NetEvent.clearFromDone c (idx + 1) clearOk) ∧
    (∀ (m e : Nat), (handleWriteBeatClick c idx numBeats bt clearOk writeOk).get? m =
      some (NetEvent.writeBeatReq c e) → 1 < m) ∧
    (numBeats ≠ 0 → ∃ m, 1 < m ∧
      (handleWriteBeatClick c idx numBeats bt clearOk writeOk).get? m =
        some (NetEvent.writeBeatReq c idx)) := by
  refine ⟨?_, ?_, ?_, ?_⟩
  · simp [handleWriteBeatClick, hRw, clearFromTrace]
  · simp [handleWriteBeatClick, hRw, clearFromTrace]
  · intro m e hm
    rcases m with _ | _ | m
    · simp [handleWriteBeatClick, hRw, clearFromTrace, List.get?] at hm
    · simp [handleWriteBeatClick, hRw, clearFromTrace, List.get?] at hm
    · omega
  · intro hnb
    by_cases hok : clearOk = true
    · refine ⟨3, by omega, ?_⟩
      simp [handleWriteBeatClick, hRw, clearFromTrace, writeBeatTrace, hok, hnb, List.get?]
    · refine ⟨2, by omega, ?_⟩
      simp [handleWriteBeatClick, hRw, clearFromTrace, writeBeatTrace, hok, hnb, List.get?]

/-- C2 (witness): the ordering at a concrete rewrite click (chapter 3,
beat 1 already written, 5 beats, both requests succeeding). -/
theorem rewrite_clearFrom_precedes_writeBeat_witness :
    (handleWriteBeatClick 3 1 5 rewriteBeatTexts true true).get? 0 =
      some (NetEvent.clearFromReq 3 2) ∧
    (handleWriteBeatClick 3 1 5 rewriteBeatTexts true true).get? 1 =
      some (NetEvent.clearFromDone 3 2 true) ∧
    1 < 3 :=
  ⟨(rewrite_clearFrom_precedes_writeBeat 3 1 5 rewriteBeatTexts true true (by decide)).1,
   (rewrite_clearFrom_precedes_writeBeat 3 1 5 rewriteBeatTexts true true (by decide)).2.1,
   (rewrite_clearFrom_precedes_writeBeat 3 1 5 rewriteBeatTexts true true (by decide)).2.2.1
     3 1 (by decide)⟩

/-- C7: a straight single quote preceded by a word character never opens a
span (it is emitted through the escaper and scanning resumes after it); a
candidate closing single quote flanked by word characters on both sides, or
not followed by a boundary, is skipped by the close scan; consequently
`Kaito's plan didn't work.` produces no dialogue span and both apostrophes
are emitted as literal escaped text. -/
theorem single_quote_mid_word_no_span :
    (∀ (p : Char) (fuel : Nat) (cs : List Char), isWordChar (some p) = true →
      scanAux (fuel + 1) (some p) (squote :: cs) =
        escapeHTML [squote] ++ scanAux fuel (some squote) cs) ∧
    (∀ (before : Char) (cs : List Char),
      (isWordChar (some before) && isWordChar cs.head?) = true ∨ isBoundary cs.head? = false →
      splitAtCloseSingle before (squote :: cs) =
        (splitAtCloseSingle squote cs).map (fun pr => (squote :: pr.1, pr.2))) ∧
    highlightDialogueToHtml ("Kaito\x27s plan didn\x27t work.") =
      ("Kaito&#039;s plan didn&#039;t work.") := by
  refine ⟨?_, ?_, ?_⟩
  · intro p fuel cs hp
    have hb : isBoundary (some p) = false := by simp [isBoundary, hp]
    have h1 : ¬(squote = openCurly) := by decide
    have h2 : ¬(squote = dquote ∧ isBoundary (some p) = true) := by
      intro hc; exact absurd hc.1 (by decide)
    have h3 : ¬(squote = squote ∧ isBoundary (some p) = true) := by
      intro hc; rw [hb] at hc; exact absurd hc.2 (by simp)
    rw [scanAux, if_neg h1, if_neg h2, if_neg h3]
  · intro before cs h
    have hc : (!(isWordChar (some before) && isWordChar cs.head?) && isBoundary cs.head?)
        = false := by
      rcases h with h | h <;> simp [h]
    have hcond : ¬(squote = squote ∧
        (!(isWordChar (some before) && isWordChar cs.head?) && isBoundary cs.head?) = true) := by
      intro hcontra; rw [hc] at hcontra; exact absurd hcontra.2 (by simp)
    rw [splitAtCloseSingle, if_neg hcond]
    rcases hsplit : splitAtCloseSingle squote cs with _ | ⟨seg, rest⟩ <;> simp
  · decide

/-- C7 (witness): the one-step facts at concrete characters (a quote after
the word character `K`; a quote between `n` and `t`). -/
theorem single_quote_mid_word_no_span_witness :
    scanAux 1 (some ('K')) [squote] = escapeHTML [squote] ++ scanAux 0 (some squote) [] ∧
    splitAtCloseSingle ('n') [squote, ('t')] =
      (splitAtCloseSingle squote [('t')]).map (fun pr => (squote :: pr.1, pr.2)) :=
  ⟨single_quote_mid_word_no_span.1 ('K') 0 [] (by decide),
   single_quote_mid_word_no_span.2.1 ('n') [('t')] (Or.inl (by decide))⟩

/-- C8: every output of `highlightDialogueToHtml` lies in the language of
concatenations of escaped characters and escaped span contents (every input
character passes through `escapeHTML`), and `escapeHTML` output never
contains a raw `<`, `>`, `"` or `'`. -/
theorem highlight_output_fully_escaped :
    (∀ raw : String, EscapedOut (highlightDialogueToHtml raw).data) ∧
    (∀ l : List Char, (escapeHTML l).all htmlSafeChar = true) := by
  constructor
  · intro raw
    exact escapedOut_scanAux raw.data.length none raw.data
  · exact escapeHTML_all_safe

/-- C10: the active TTS provider is the first of `piper`, `xtts`, `qwen` (in
that fixed order) occurring as a substring of the lowercased monitor text;
when none occurs the result is null and every Generate button is disabled. -/
theorem active_provider_fixed_priority :
    (∀ t : String, hasSubstr (jsToLower t).data (("piper").data) = true →
      getActiveTtsProvider t = some ("piper")) ∧
    (∀ t : String, hasSubstr (jsToLower t).data (("piper").data) = false →
      hasSubstr (jsToLower t).data (("xtts").data) = true →
      getActiveTtsProvider t = some ("xtts")) ∧
    (∀ t : String, hasSubstr (jsToLower t).data (("piper").data) = false →
      hasSubstr (jsToLower t).data (("xtts").data) = false →
      hasSubstr (jsToLower t).data (("qwen").data) = true →
      getActiveTtsProvider t = some ("qwen")) ∧
    (∀ t : String, hasSubstr (jsToLower t).data (("piper").data) = false →
      hasSubstr (jsToLower t).data (("xtts").data) = false →
      hasSubstr (jsToLower t).data (("qwen").data) = false →
      getActiveTtsProvider t = none) ∧
    (∀ p : String, generateButtonDisabled none p = true) := by
  refine ⟨?_, ?_, ?_, ?_, fun p => rfl⟩
  · intro t h1
    simp [getActiveTtsProvider, TTS_PROVIDER_KEYS, List.find?, h1]
  · intro t h1 h2
    simp [getActiveTtsProvider, TTS_PROVIDER_KEYS, List.find?, h1, h2]
  · intro t h1 h2 h3
    simp [getActiveTtsProvider, TTS_PROVIDER_KEYS, List.find?, h1, h2, h3]
  · intro t h1 h2 h3
    simp [getActiveTtsProvider, TTS_PROVIDER_KEYS, List.find?, h1, h2, h3]

/-- C10 (witness): the characterization at concrete monitor texts, including
one reporting several providers at once. -/
theorem active_provider_fixed_priority_witness :
    getActiveTtsProvider ("Piper XTTS loaded") = some ("piper") ∧
    getActiveTtsProvider ("xtts qwen") = some ("xtts") ∧
    getActiveTtsProvider ("only QWEN") = some ("qwen") ∧
    getActiveTtsProvider ("nothing") = none ∧
    generateButtonDisabled none ("piper") = true :=
  ⟨active_provider_fixed_priority.1 ("Piper XTTS loaded") (by decide),
   active_provider_fixed_priority.2.1 ("xtts qwen") (by decide) (by decide),
   active_provider_fixed_priority.2.2.1 ("only QWEN") (by decide) (by decide) (by decide),
   active_provider_fixed_priority.2.2.2.1 ("nothing") (by decide) (by decide) (by decide),
   active_provider_fixed_priority.2.2.2.2 ("piper")⟩
